import Mathlib

/-!
Verification of the GENUS aggregation & cache layer.

The definitions below are a shallow embedding of the TypeScript source:
the autocomplete suggestion matchers (TaxonomyChart and AnimalSearch
variants), the per-rank aggregation/caching engine (`aggregateRankData`,
`refreshRank`) with its module-level `rankCache` / `rankLastFetchTime`
maps, and the taxonomy hierarchy construction
(`generateTaxonomyHierarchy`).  Network interaction is modelled by
explicit oracles; JavaScript exceptions are modelled with `Except`;
JavaScript truthiness on strings/numbers is modelled explicitly.
-/

namespace Genus

/-- Model of JavaScript `String.prototype.toLowerCase` (ASCII inputs). -/
def jsToLower (s : String) : String := ⟨s.data.map Char.toLower⟩

/-- Model of JavaScript `String.prototype.trim`. -/
def jsTrim (s : String) : String :=
  ⟨((s.data.dropWhile Char.isWhitespace).reverse.dropWhile Char.isWhitespace).reverse⟩

/-- Model of JavaScript `s.startsWith(pat)`. -/
def jsStartsWith (s pat : String) : Bool := pat.data.isPrefixOf s.data

/-- Helper for `jsIncludes`: `pat` occurs as a contiguous run inside the
second list. -/
def occursWithin (pat : List Char) : List Char → Bool
  | [] => pat.isEmpty
  | c :: rest => pat.isPrefixOf (c :: rest) || occursWithin pat rest

/-- Model of JavaScript `s.includes(pat)`. -/
def jsIncludes (s pat : String) : Bool := occursWithin pat.data s.data

/-- Model of JavaScript `o || d` for an optional string field:
falsy (`undefined`, `null`, `""`) falls back to the default. -/
def jsOrStr (o : Option String) (d : String) : String :=
  match o with
  | some s => if s = "" then d else s
  | none => d

-- -------------------- Local suggestion data --------------------

/-- `COMMON_SPECIES` scientific names (both source files list the same ten). -/
def COMMON_SPECIES_SCIENTIFIC : List String :=
  ["Panthera leo", "Elephas maximus", "Ursus arctos", "Canis lupus",
   "Felis catus", "Equus caballus", "Bos taurus", "Sus scrofa",
   "Vulpes vulpes", "Homo sapiens"]

/-- `ALL_SCIENTIFIC_NAMES`: the static suggestion list (identical in the
TaxonomyChart and AnimalSearch source files). -/
def ALL_SCIENTIFIC_NAMES : List String :=
  COMMON_SPECIES_SCIENTIFIC ++
  ["Panthera tigris", "Ailuropoda melanoleuca", "Giraffa camelopardalis",
   "Hippopotamus amphibius", "Crocodylus niloticus", "Struthio camelus",
   "Spheniscus demersus", "Gorilla gorilla", "Pan troglodytes", "Pongo pygmaeus"]

-- -------------------- Suggestion matchers --------------------

/-- The TaxonomyChart autocomplete effect: trims and lower-cases the
debounced input, puts `startsWith` matches before `includes`-only
matches, and caps the combined list at 10. -/
def suggestTiered (names : List String) (input : String) : List String :=
  let q := jsTrim input
  if q.data.length = 0 then []
  else
    let lowerQ := jsToLower q
    let starts := names.filter (fun n => jsStartsWith (jsToLower n) lowerQ)
    let includes := names.filter
      (fun n => !jsStartsWith (jsToLower n) lowerQ && jsIncludes (jsToLower n) lowerQ)
    (starts ++ includes).take 10

/-- The AnimalSearch autocomplete effect: trims the debounced input and
returns the first 10 case-insensitive substring matches in list order. -/
def suggestSubstr (names : List String) (input : String) : List String :=
  let q := jsTrim input
  if q.data.length = 0 then []
  else (names.filter (fun n => jsIncludes (jsToLower n) (jsToLower q))).take 10

-- -------------------- Rank aggregation data model --------------------

/-- `ITISResult` (source interface; the wiki-only fetch path never builds one). -/
structure ITISResult where
  tsn : Option String
  scientificName : Option String
  commonNames : Option (List String)
  citation : Option String
  sourceUrl : Option String
deriving DecidableEq

/-- `GBIFResult` (source interface; the wiki-only fetch path never builds one). -/
structure GBIFResult where
  usageKey : Option Nat
  canonicalName : Option String
  kingdom : Option String
  distribution : Option String
  commonNames : Option (List String)
  sourceUrl : Option String
deriving DecidableEq

/-- `WikiResult` (source interface). -/
structure WikiResult where
  extract : Option String
  pageUrl : Option String
deriving DecidableEq

/-- `RankFetchResult` (source interface). -/
structure RankFetchResult where
  itis : Option ITISResult
  gbif : Option GBIFResult
  wiki : Option WikiResult
  combinedSummary : Option String
  fetchedAt : Nat
  error : Option String
deriving DecidableEq

/-- Raw outcome of the Wikipedia summary HTTP round trip, as `fetchWiki`
observes it after `fetchWithTimeout` and `res.json()`: `ok` is the HTTP
success flag, `extract` is `json?.extract`, `desktopPage` is
`json?.content_urls?.desktop?.page`. -/
structure WikiHttp where
  ok : Bool
  extract : Option String
  desktopPage : Option String
deriving DecidableEq

/-- Network oracle for the Wikipedia summary endpoint; `.error` models a
thrown exception (network failure, timeout/abort, malformed JSON). -/
def WikiNet : Type := String → Except String WikiHttp

/-- `fetchWiki` from the source: one request with timeout; returns `null`
on non-success status and on any thrown error (its `try`/`catch` converts
every exception into `null`), otherwise a `WikiResult` whose `extract` is
`json?.extract || undefined` and whose `pageUrl` falls back to the
article URL derived from the name. -/
def fetchWiki (net : WikiNet) (name : String) : Option WikiResult :=
  match net name with
  | .error _ => none
  | .ok r =>
      if !r.ok then none
      else some
        { extract := match r.extract with
            | some e => if e = "" then none else some e
            | none => none
          pageUrl := some (jsOrStr r.desktopPage
            ("https://en.wikipedia.org/wiki/" ++ name)) }

/-- The module-level mutable maps `rankCache` and `rankLastFetchTime`. -/
structure RankStore where
  cache : String → Option RankFetchResult
  lastFetch : String → Option Nat

/-- Map update (`Map.prototype.set`). -/
def upd {α : Type} (f : String → Option α) (k : String) (v : α) :
    String → Option α :=
  fun x => if x = k then some v else f x

/-- Map removal (`Map.prototype.delete`). -/
def del {α : Type} (f : String → Option α) (k : String) :
    String → Option α :=
  fun x => if x = k then none else f x

/-- The session-initial empty store. -/
def emptyStore : RankStore := ⟨fun _ => none, fun _ => none⟩

/-- `RANK_FETCH_THROTTLE_MS` from the source. -/
def RANK_FETCH_THROTTLE_MS : Nat := 1000

/-- The success record built in `aggregateRankData`'s `try` branch:
`{ itis: null, gbif: null, wiki: wiki || null, combinedSummary: undefined,
fetchedAt: Date.now(), error: null }`. -/
def fetchedResult (net : WikiNet) (levelName : String) (now2 : Nat) :
    RankFetchResult :=
  { itis := none, gbif := none, wiki := fetchWiki net levelName
    combinedSummary := none, fetchedAt := now2, error := none }

/-- `aggregateRankData` from the source, as a state-passing function.
`now` is `Date.now()` at entry, `now2` is `Date.now()` at result
construction.  The returned triple is the resolved `RankFetchResult`,
the updated store, and the number of network round trips issued (the
wiki-only fetch path performs exactly one request).  The outer `Except`
models a thrown exception escaping the function; the source's
`try`/`catch` is kept even though its body (`fetchWiki`) never throws. -/
def aggregateRankData (net : WikiNet) (now now2 : Nat) (levelName : String)
    (s : RankStore) : Except String (RankFetchResult × RankStore × Nat) :=
  let key := jsToLower levelName
  let last := (s.lastFetch key).getD 0
  -- throttle: `now - last < RANK_FETCH_THROTTLE_MS && rankCache.has(key)`
  match s.cache key with
  | some e =>
      if now - last < RANK_FETCH_THROTTLE_MS then .ok (e, s, 0)
      else aggregateFetch net now now2 levelName key s
  | none => aggregateFetch net now now2 levelName key s
where
  /-- The non-throttled path: record the attempt time, then `try` the
  single Wikipedia fetch, caching either the success record or the
  `catch`-branch fallback record. -/
  aggregateFetch (net : WikiNet) (now now2 : Nat) (levelName key : String)
      (s : RankStore) : Except String (RankFetchResult × RankStore × Nat) :=
    let s1 : RankStore := { s with lastFetch := upd s.lastFetch key now }
    let attempt : Except String RankFetchResult :=
      -- `await fetchWiki(...)` cannot reject: `fetchWiki` catches internally
      Except.ok (fetchedResult net levelName now2)
    match attempt with
    | .ok result =>
        .ok (result, { s1 with cache := upd s1.cache key result }, 1)
    | .error msg =>
        let fallback : RankFetchResult :=
          { itis := none, gbif := none, wiki := none
            combinedSummary := some "Failed to retrieve remote data. Showing fallback content."
            fetchedAt := now2, error := some msg }
        .ok (fallback, { s1 with cache := upd s1.cache key fallback }, 1)

/-- `refreshRank` from the source: delete the cache entry and the
last-fetch time for the key, then re-run `aggregateRankData`; its
`catch` branch resolves with `null` (modelled as `none`). -/
def refreshRank (net : WikiNet) (now now2 : Nat) (levelName : String)
    (s : RankStore) : Except String (Option RankFetchResult × RankStore × Nat) :=
  let key := jsToLower levelName
  let s0 : RankStore := ⟨del s.cache key, del s.lastFetch key⟩
  match aggregateRankData net now now2 levelName s0 with
  | .ok (r, s', n) => .ok (some r, s', n)
  | .error _ => .ok (none, s0, 0)

-- -------------------- Taxonomy hierarchy pipeline --------------------

/-- `TaxonomyLevel` (source interface). -/
structure TaxonomyLevel where
  rank : String
  name : String
  description : Option String
deriving DecidableEq

/-- `TaxonomyData` (source interface). -/
structure TaxonomyData where
  species : String
  hierarchy : List TaxonomyLevel
  funFact : String
deriving DecidableEq

/-- The GBIF `species/match` JSON as the source inspects it: only
`usageKey` matters (`number` or absent). -/
structure MatchResponse where
  usageKey : Option Nat
deriving DecidableEq

/-- The GBIF `species/{usageKey}` classification record: the seven rank
name fields, each possibly absent (the source field `class` is renamed
`classRank` because `class` is a Lean keyword). -/
structure GBIFSpeciesRecord where
  kingdom : Option String
  phylum : Option String
  classRank : Option String
  order : Option String
  family : Option String
  genus : Option String
  species : Option String
deriving DecidableEq

/-- The Wikipedia summary response as the fun-fact step inspects it. -/
structure WikiSummary where
  ok : Bool
  extract : Option String
deriving DecidableEq

/-- Errors escaping `generateTaxonomyHierarchy`: the explicit
`throw new Error('No taxonomy found')` versus a propagated fetch/JSON
rejection. -/
inductive TaxError where
  | noTaxonomyFound
  | network (msg : String)
deriving DecidableEq

/-- The unfiltered seven-level array literal built in
`generateTaxonomyHierarchy`: levels Kingdom→Species, each name
`speciesJson.<rank> || ''` (Species falls back to the queried name
instead of `''`). -/
def taxonomyAllLevels (speciesJson : GBIFSpeciesRecord) (scientificName : String) :
    List TaxonomyLevel :=
  [ { rank := "Kingdom", name := jsOrStr speciesJson.kingdom ""
      description := some "Highest rank grouping all animals." },
     { rank := "Phylum", name := jsOrStr speciesJson.phylum ""
       description := some "Major lineage within the kingdom." },
     { rank := "Class", name := jsOrStr speciesJson.classRank ""
       description := some "Group of related orders." },
     { rank := "Order", name := jsOrStr speciesJson.order ""
       description := some "Group of related families." },
     { rank := "Family", name := jsOrStr speciesJson.family ""
       description := some "Group of related genera." },
     { rank := "Genus", name := jsOrStr speciesJson.genus ""
       description := some "Group of closely related species." },
     { rank := "Species", name := jsOrStr speciesJson.species scientificName
       description := some "Specific organism." } ]

/-- The `hierarchy` array of `generateTaxonomyHierarchy`:
`[...].filter(level => level.name)` keeps the truthy (non-empty) names. -/
def taxonomyLevels (speciesJson : GBIFSpeciesRecord) (scientificName : String) :
    List TaxonomyLevel :=
  (taxonomyAllLevels speciesJson scientificName).filter
    (fun level => !level.name.isEmpty)

/-- The fun-fact step of `generateTaxonomyHierarchy`: its own
`try`/`catch` plus `res.ok` check; every failure yields the fixed
fallback text. -/
def funFactOf (wikiNet : String → Except String WikiSummary)
    (scientificName : String) : String :=
  match wikiNet scientificName with
  | .error _ => "No fun fact found."
  | .ok r =>
      if r.ok then jsOrStr r.extract "No fun fact found."
      else "No fun fact found."

/-- `generateTaxonomyHierarchy` from the source: a two-step GBIF lookup
(name→`usageKey`, `usageKey`→classification record) followed by the
fun-fact fetch.  `matchNet`/`speciesNet`/`wikiNet` are the three network
oracles (`.error` models a rejected fetch or JSON parse).  The guard is
`if (!matchJson.usageKey) throw new Error('No taxonomy found')`, i.e. it
throws when `usageKey` is absent (or the falsy `0`).  The second
component records whether the second (classification) endpoint was
requested. -/
def generateTaxonomyHierarchy (matchNet : String → Except String MatchResponse)
    (speciesNet : Nat → Except String GBIFSpeciesRecord)
    (wikiNet : String → Except String WikiSummary)
    (scientificName : String) : Except TaxError TaxonomyData × Bool :=
  match matchNet scientificName with
  | .error e => (.error (.network e), false)
  | .ok matchJson =>
      match matchJson.usageKey with
      | none => (.error .noTaxonomyFound, false)
      | some k =>
          if k = 0 then (.error .noTaxonomyFound, false)
          else
            match speciesNet k with
            | .error e => (.error (.network e), true)
            | .ok speciesJson =>
                (.ok { species := scientificName
                       hierarchy := taxonomyLevels speciesJson scientificName
                       funFact := funFactOf wikiNet scientificName }, true)

-- -------------------- Concrete test fixtures --------------------

/-- A wiki oracle that always answers successfully. -/
def okNet : WikiNet := fun _ => .ok ⟨true, some "An animal.", some "https://w/x"⟩

/-- A wiki oracle on which every request fails (thrown network error). -/
def failNet : WikiNet := fun _ => .error "network unreachable"

/-- Projection: the resolved entry of an `aggregateRankData` outcome. -/
def entryOf (x : Except String (RankFetchResult × RankStore × Nat)) :
    Option RankFetchResult :=
  match x with
  | .ok (r, _, _) => some r
  | .error _ => none

/-- Store after one fetch attempt for `"lion"` at time 3 against `okNet`. -/
def storeLion : RankStore :=
  ⟨upd emptyStore.cache (jsToLower "lion") (fetchedResult okNet "lion" 4),
   upd emptyStore.lastFetch (jsToLower "lion") 3⟩

/-- Store after one fetch attempt for `"Panthera Leo"` at time 3 against
`okNet`. -/
def storeLeo : RankStore :=
  ⟨upd emptyStore.cache (jsToLower "Panthera Leo")
     (fetchedResult okNet "Panthera Leo" 4),
   upd emptyStore.lastFetch (jsToLower "Panthera Leo") 3⟩

/-- Store after one failed fetch attempt for `"gorilla"` at time 3 against
`failNet`. -/
def storeGorilla : RankStore :=
  ⟨upd emptyStore.cache (jsToLower "gorilla") (fetchedResult failNet "gorilla" 4),
   upd emptyStore.lastFetch (jsToLower "gorilla") 3⟩

/-- GBIF classification record for `"Homo sapiens"` with all seven ranks. -/
def homoRec : GBIFSpeciesRecord :=
  ⟨some "Animalia", some "Chordata", some "Mammalia", some "Primates",
   some "Hominidae", some "Homo", some "Homo sapiens"⟩

/-- Match oracle resolving every name to usage key 1. -/
def matchNetOk : String → Except String MatchResponse := fun _ => .ok ⟨some 1⟩

/-- Species oracle answering with the `"Homo sapiens"` record. -/
def speciesNetHomo : Nat → Except String GBIFSpeciesRecord := fun _ => .ok homoRec

/-- Wiki-summary oracle that always answers successfully. -/
def wikiNetOk : String → Except String WikiSummary :=
  fun _ => .ok ⟨true, some "Humans are primates."⟩

/-- The `TaxonomyData` produced for `"Homo sapiens"` by the fixtures. -/
def tdHomo : TaxonomyData :=
  ⟨"Homo sapiens", taxonomyLevels homoRec "Homo sapiens",
   funFactOf wikiNetOk "Homo sapiens"⟩

-- -------------------- Engine lemmas --------------------

lemma aggregateFetch_spec (net : WikiNet) (now now2 : Nat) (levelName key : String)
    (s : RankStore) :
    aggregateRankData.aggregateFetch net now now2 levelName key s =
      .ok (fetchedResult net levelName now2,
           ⟨upd s.cache key (fetchedResult net levelName now2),
            upd s.lastFetch key now⟩, 1) := rfl

lemma aggregate_hitD (net : WikiNet) (now now2 : Nat) (name : String) (s : RankStore)
    (e : RankFetchResult)
    (hc : s.cache (jsToLower name) = some e)
    (hw : now - (s.lastFetch (jsToLower name)).getD 0 < RANK_FETCH_THROTTLE_MS) :
    aggregateRankData net now now2 name s = .ok (e, s, 0) := by
  simp only [aggregateRankData, hc]
  rw [if_pos hw]

lemma aggregate_miss (net : WikiNet) (now now2 : Nat) (name : String) (s : RankStore)
    (hc : s.cache (jsToLower name) = none) :
    aggregateRankData net now now2 name s =
      .ok (fetchedResult net name now2,
           ⟨upd s.cache (jsToLower name) (fetchedResult net name now2),
            upd s.lastFetch (jsToLower name) now⟩, 1) := by
  simp only [aggregateRankData, hc]
  exact aggregateFetch_spec net now now2 name (jsToLower name) s

lemma aggregate_stale (net : WikiNet) (now now2 : Nat) (name : String) (s : RankStore)
    (e : RankFetchResult)
    (hc : s.cache (jsToLower name) = some e)
    (hw : ¬ now - (s.lastFetch (jsToLower name)).getD 0 < RANK_FETCH_THROTTLE_MS) :
    aggregateRankData net now now2 name s =
      .ok (fetchedResult net name now2,
           ⟨upd s.cache (jsToLower name) (fetchedResult net name now2),
            upd s.lastFetch (jsToLower name) now⟩, 1) := by
  simp only [aggregateRankData, hc]
  rw [if_neg hw]
  exact aggregateFetch_spec net now now2 name (jsToLower name) s

lemma aggregate_count_one (net : WikiNet) (t1 t1' : Nat) (name : String)
    (s : RankStore) (r : RankFetchResult) (s₁ : RankStore)
    (h : aggregateRankData net t1 t1' name s = .ok (r, s₁, 1)) :
    r = fetchedResult net name t1' ∧
    s₁.cache (jsToLower name) = some r ∧
    s₁.lastFetch (jsToLower name) = some t1 := by
  rcases hc : s.cache (jsToLower name) with _ | e
  · rw [aggregate_miss net t1 t1' name s hc] at h
    simp only [Except.ok.injEq, Prod.mk.injEq] at h
    obtain ⟨hr, hs, -⟩ := h
    subst hr; subst hs
    refine ⟨rfl, ?_, ?_⟩ <;> simp [upd]
  · by_cases hw : t1 - (s.lastFetch (jsToLower name)).getD 0 < RANK_FETCH_THROTTLE_MS
    · rw [aggregate_hitD net t1 t1' name s e hc hw] at h
      simp only [Except.ok.injEq, Prod.mk.injEq] at h
      exact absurd h.2.2 (by decide)
    · rw [aggregate_stale net t1 t1' name s e hc hw] at h
      simp only [Except.ok.injEq, Prod.mk.injEq] at h
      obtain ⟨hr, hs, -⟩ := h
      subst hr; subst hs
      refine ⟨rfl, ?_, ?_⟩ <;> simp [upd]

-- -------------------- Claim theorems --------------------

/-- C1: after a completed fetch attempt for a key, a second `get`
(`aggregateRankData`) for the same key within the throttle window
returns the entry cached by the first call, performs no further network
round trip (so across the two calls the single provider is called at
most once), and leaves the store untouched. -/
theorem getTwice_within_throttle_single_fetch (net : WikiNet)
    (t1 t1' t2 t2' : Nat) (name : String) (s : RankStore)
    (r1 : RankFetchResult) (s1 : RankStore)
    (h1 : aggregateRankData net t1 t1' name s = .ok (r1, s1, 1))
    (_hle : t1 ≤ t2) (hwin : t2 - t1 < RANK_FETCH_THROTTLE_MS) :
    aggregateRankData net t2 t2' name s1 = .ok (r1, s1, 0) := by
  obtain ⟨-, hc, ht⟩ := aggregate_count_one net t1 t1' name s r1 s1 h1
  exact aggregate_hitD net t2 t2' name s1 r1 hc (by rw [ht]; exact hwin)

/-- Witness for C1 at concrete inputs. -/
theorem getTwice_within_throttle_single_fetch_witness :
    aggregateRankData okNet 500 600 "lion" storeLion =
      .ok (fetchedResult okNet "lion" 4, storeLion, 0) :=
  getTwice_within_throttle_single_fetch okNet 3 4 500 600 "lion" emptyStore
    (fetchedResult okNet "lion" 4) storeLion rfl (by decide) (by decide)

/-- C3: `refreshRank` unconditionally discards the cached entry and the
recorded last-fetch time for the key and re-fetches: for every store
(including one holding a fresh entry from a `get` issued moments
before), it performs exactly one network round trip and installs a newly
fetched entry and last-fetch time for the key. -/
theorem refreshRank_always_refetches (net : WikiNet) (now now2 : Nat)
    (name : String) (s : RankStore) :
    refreshRank net now now2 name s =
      .ok (some (fetchedResult net name now2),
           ⟨upd (del s.cache (jsToLower name)) (jsToLower name)
              (fetchedResult net name now2),
            upd (del s.lastFetch (jsToLower name)) (jsToLower name) now⟩, 1) := by
  have h := aggregate_miss net now now2 name
    ⟨del s.cache (jsToLower name), del s.lastFetch (jsToLower name)⟩
    (by simp [del])
  simp only [refreshRank, h]

/-- C6: `aggregateRankData` and `refreshRank` never let an exception
escape: for every oracle (including ones whose every request throws),
both resolve with a cache entry. -/
theorem get_refresh_total (net : WikiNet) (now now2 : Nat) (name : String)
    (s : RankStore) :
    (∃ r s' n, aggregateRankData net now now2 name s = .ok (r, s', n)) ∧
    (∃ r s' n, refreshRank net now now2 name s = .ok (some r, s', n)) := by
  constructor
  · rcases hc : s.cache (jsToLower name) with _ | e
    · exact ⟨_, _, _, aggregate_miss net now now2 name s hc⟩
    · by_cases hw : now - (s.lastFetch (jsToLower name)).getD 0 < RANK_FETCH_THROTTLE_MS
      · exact ⟨e, s, 0, aggregate_hitD net now now2 name s e hc hw⟩
      · exact ⟨_, _, _, aggregate_stale net now now2 name s e hc hw⟩
  · refine ⟨fetchedResult net name now2,
      ⟨upd (del s.cache (jsToLower name)) (jsToLower name)
         (fetchedResult net name now2),
       upd (del s.lastFetch (jsToLower name)) (jsToLower name) now⟩, 1, ?_⟩
    have h := aggregate_miss net now now2 name
      ⟨del s.cache (jsToLower name), del s.lastFetch (jsToLower name)⟩
      (by simp [del])
    simp only [refreshRank, h]

/-- C10: a `get` served from cache within the throttle window changes no
shared state: the store (both maps, hence the stored entry) is returned
unchanged, the result is the previously stored entry itself, and no
network call is made. -/
theorem cache_hit_leaves_state_unchanged (net : WikiNet) (now now2 : Nat)
    (name : String) (s : RankStore) (e : RankFetchResult) (t : Nat)
    (hc : s.cache (jsToLower name) = some e)
    (ht : s.lastFetch (jsToLower name) = some t)
    (hw : now - t < RANK_FETCH_THROTTLE_MS) :
    aggregateRankData net now now2 name s = .ok (e, s, 0) :=
  aggregate_hitD net now now2 name s e hc (by rw [ht]; exact hw)

/-- Witness for C10 at concrete inputs. -/
theorem cache_hit_leaves_state_unchanged_witness :
    aggregateRankData okNet 700 800 "lion" storeLion =
      .ok (fetchedResult okNet "lion" 4, storeLion, 0) :=
  cache_hit_leaves_state_unchanged okNet 700 800 "lion" storeLion
    (fetchedResult okNet "lion" 4) 3 (by simp [storeLion, upd, emptyStore])
    (by simp [storeLion, upd, emptyStore]) (by decide)

/-- C2 counterexample: two inputs that differ only in trailing
whitespace (their trimmed, lower-cased forms agree) are mapped by the
engine's key normalization (`levelName.toLowerCase()`, with no trim) to
two distinct query keys. -/
theorem whitespace_variant_distinct_keys :
    jsToLower (jsTrim ("Panthera leo" ++ " ")) = jsToLower (jsTrim "Panthera leo")
    ∧ jsToLower ("Panthera leo" ++ " ") ≠ jsToLower "Panthera leo" := by
  decide

/-- C2 amended: inputs that differ only in letter casing map to the same
query key (the normalization lower-cases but does not trim), so after a
completed fetch attempt for one of them, a `get` for the other within
the throttle window returns the same cached entry with no further
network call. -/
theorem casing_variant_same_entry (a b : String) (net : WikiNet)
    (t1 t1' t2 t2' : Nat) (s : RankStore) (r1 : RankFetchResult) (s1 : RankStore)
    (hcase : a.data.map Char.toLower = b.data.map Char.toLower)
    (h1 : aggregateRankData net t1 t1' a s = .ok (r1, s1, 1))
    (_hle : t1 ≤ t2) (hwin : t2 - t1 < RANK_FETCH_THROTTLE_MS) :
    jsToLower a = jsToLower b ∧
    aggregateRankData net t2 t2' b s1 = .ok (r1, s1, 0) := by
  have hkey : jsToLower a = jsToLower b := congrArg String.mk hcase
  obtain ⟨-, hc, ht⟩ := aggregate_count_one net t1 t1' a s r1 s1 h1
  rw [hkey] at hc ht
  exact ⟨hkey, aggregate_hitD net t2 t2' b s1 r1 hc (by rw [ht]; exact hwin)⟩

/-- Witness for the amended C2 at concrete inputs. -/
theorem casing_variant_same_entry_witness :
    jsToLower "Panthera Leo" = jsToLower "panthera leo" ∧
    aggregateRankData okNet 500 600 "panthera leo" storeLeo =
      .ok (fetchedResult okNet "Panthera Leo" 4, storeLeo, 0) :=
  casing_variant_same_entry "Panthera Leo" "panthera leo" okNet 3 4 500 600
    emptyStore (fetchedResult okNet "Panthera Leo" 4) storeLeo
    (by decide) rfl (by decide) (by decide)

/-- C5 counterexample: a request on which the only invoked provider
fails (the oracle throws on every request, so `fetchWiki` yields
`null`) produces a cache entry whose `error` field is `null` — not a
populated human-readable cause — because `fetchWiki` swallows its own
failures and `aggregateRankData`'s success branch runs. -/
theorem all_providers_fail_error_unset :
    (entryOf (aggregateRankData failNet 0 0 "panthera leo" emptyStore)).map
        (fun r => (r.error, r.itis, r.gbif, r.wiki))
      = some (none, none, none, none) := by
  decide

/-- C5 amended: when every invoked provider fails (`fetchWiki` resolves
to `null`), the resulting entry has all per-provider fields absent and
`error` left `null` (the failure is represented by the absent wiki
data); the entry is nevertheless cached, so a second `get` within the
throttle window returns the same failed entry without a new network
call. -/
theorem failed_fetch_cached_error_none (net : WikiNet) (name : String)
    (t1 t1' t2 t2' : Nat) (s : RankStore) (r1 : RankFetchResult) (s1 : RankStore)
    (hfail : fetchWiki net name = none)
    (h1 : aggregateRankData net t1 t1' name s = .ok (r1, s1, 1))
    (_hle : t1 ≤ t2) (hwin : t2 - t1 < RANK_FETCH_THROTTLE_MS) :
    r1.itis = none ∧ r1.gbif = none ∧ r1.wiki = none ∧ r1.error = none ∧
    s1.cache (jsToLower name) = some r1 ∧
    aggregateRankData net t2 t2' name s1 = .ok (r1, s1, 0) := by
  obtain ⟨hr, hc, ht⟩ := aggregate_count_one net t1 t1' name s r1 s1 h1
  subst hr
  refine ⟨rfl, rfl, hfail, rfl, hc, ?_⟩
  exact aggregate_hitD net t2 t2' name s1 _ hc (by rw [ht]; exact hwin)

lemma string_data_eq_nil {s : String} (h : s.data = []) : s = "" := by
  cases s with
  | mk l => cases h; rfl

lemma head_of_isPrefixOf {c : Char} {t l : List Char}
    (h : (c :: t).isPrefixOf l = true) : l.head? = some c := by
  cases l with
  | nil => simp [List.isPrefixOf] at h
  | cons c2 l2 =>
      simp only [List.isPrefixOf, Bool.and_eq_true, beq_iff_eq] at h
      simp [h.1]

lemma startsFilter_length_le (p : String) (hp : p.data ≠ []) :
    (ALL_SCIENTIFIC_NAMES.filter
      (fun n => jsStartsWith (jsToLower n) p)).length ≤ 10 := by
  rcases hd : p.data with _ | ⟨c, t⟩
  · exact absurd hd hp
  by_cases hne :
      ALL_SCIENTIFIC_NAMES.filter (fun n => jsStartsWith (jsToLower n) p) = []
  · simp [hne]
  obtain ⟨n, hn⟩ := List.exists_mem_of_ne_nil _ hne
  have hmem := List.mem_filter.mp hn
  have hhead : (jsToLower n).data.head? = some c := by
    have h2 := hmem.2
    simp only [jsStartsWith, hd] at h2
    exact head_of_isPrefixOf h2
  have hc : some c ∈
      ALL_SCIENTIFIC_NAMES.map (fun n => (jsToLower n).data.head?) := by
    rw [← hhead]
    exact List.mem_map_of_mem _ hmem.1
  have hmono :
      (ALL_SCIENTIFIC_NAMES.filter
        (fun n => jsStartsWith (jsToLower n) p)).Sublist
      (ALL_SCIENTIFIC_NAMES.filter
        (fun n => decide ((jsToLower n).data.head? = some c))) := by
    apply List.monotone_filter_right
    intro a ha
    simp only [jsStartsWith, hd] at ha
    simp [head_of_isPrefixOf ha]
  have hlen := hmono.length_le
  have hmap : ALL_SCIENTIFIC_NAMES.map (fun n => (jsToLower n).data.head?) =
      [some 'p', some 'e', some 'u', some 'c', some 'f', some 'e', some 'b',
       some 's', some 'v', some 'h', some 'p', some 'a', some 'g', some 'h',
       some 'c', some 's', some 's', some 'g', some 'p', some 'p'] := by decide
  rw [hmap] at hc
  fin_cases hc <;> exact le_trans hlen (by decide)

lemma isEmpty_false_of_ne {s : String} (h : s ≠ "") : s.isEmpty = false := by
  rw [Bool.eq_false_iff]
  intro ht
  exact h ((String.isEmpty_iff s).mp ht)

lemma jsOrStr_ne (o : Option String) {d : String} (hd : d ≠ "") :
    jsOrStr o d ≠ "" := by
  cases o with
  | none => simpa [jsOrStr] using hd
  | some s =>
      by_cases hs : s = "" <;> simp [jsOrStr, hs, hd]

lemma species_mem_taxonomyLevels (rec : GBIFSpeciesRecord) (name : String)
    (h : name ≠ "") :
    ∃ l, l ∈ taxonomyLevels rec name ∧ l.rank = "Species" ∧ l.name ≠ "" := by
  refine ⟨⟨"Species", jsOrStr rec.species name, some "Specific organism."⟩,
    ?_, rfl, jsOrStr_ne rec.species h⟩
  apply List.mem_filter.mpr
  refine ⟨by simp [taxonomyAllLevels], ?_⟩
  simp [isEmpty_false_of_ne (jsOrStr_ne rec.species h)]

/-- C7: the hierarchy lists ranks in Kingdom→Species order (its rank
labels form a sublist of the seven canonical labels, so empty levels are
dropped with order preserved), every retained level has a non-empty
name, and when the provider record populates all seven ranks the
hierarchy is exactly the seven (rank, name) pairs in order. -/
theorem taxonomyLevels_ordered (rec : GBIFSpeciesRecord) (name : String) :
    ((taxonomyLevels rec name).map TaxonomyLevel.rank).Sublist
      ["Kingdom", "Phylum", "Class", "Order", "Family", "Genus", "Species"]
    ∧ (∀ l ∈ taxonomyLevels rec name, l.name ≠ "")
    ∧ (∀ kn pn cn odn fn gn sn,
        rec = ⟨some kn, some pn, some cn, some odn, some fn, some gn, some sn⟩ →
        kn ≠ "" → pn ≠ "" → cn ≠ "" → odn ≠ "" → fn ≠ "" → gn ≠ "" → sn ≠ "" →
        (taxonomyLevels rec name).map (fun l => (l.rank, l.name)) =
          [("Kingdom", kn), ("Phylum", pn), ("Class", cn), ("Order", odn),
           ("Family", fn), ("Genus", gn), ("Species", sn)]) := by
  refine ⟨?_, ?_, ?_⟩
  · have h : (taxonomyLevels rec name).Sublist (taxonomyAllLevels rec name) :=
      List.filter_sublist _
    have h2 := h.map TaxonomyLevel.rank
    have hmap : (taxonomyAllLevels rec name).map TaxonomyLevel.rank =
        ["Kingdom", "Phylum", "Class", "Order", "Family", "Genus", "Species"] := rfl
    rw [hmap] at h2
    exact h2
  · intro l hl
    have h2 := (List.mem_filter.mp hl).2
    intro he
    rw [he] at h2
    exact absurd h2 (by decide)
  · intro kn pn cn odn fn gn sn heq hkn hpn hcn hodn hfn hgn hsn
    subst heq
    simp [taxonomyLevels, taxonomyAllLevels, jsOrStr,
      hkn, hpn, hcn, hodn, hfn, hgn, hsn,
      isEmpty_false_of_ne hkn, isEmpty_false_of_ne hpn, isEmpty_false_of_ne hcn,
      isEmpty_false_of_ne hodn, isEmpty_false_of_ne hfn, isEmpty_false_of_ne hgn,
      isEmpty_false_of_ne hsn]

/-- Witness for C7: the all-seven-ranks case at the `"Homo sapiens"`
record. -/
theorem taxonomyLevels_ordered_witness :
    (taxonomyLevels homoRec "Homo sapiens").map (fun l => (l.rank, l.name)) =
      [("Kingdom", "Animalia"), ("Phylum", "Chordata"), ("Class", "Mammalia"),
       ("Order", "Primates"), ("Family", "Hominidae"), ("Genus", "Homo"),
       ("Species", "Homo sapiens")] :=
  (taxonomyLevels_ordered homoRec "Homo sapiens").2.2 "Animalia" "Chordata"
    "Mammalia" "Primates" "Hominidae" "Homo" "Homo sapiens" rfl (by decide)
    (by decide) (by decide) (by decide) (by decide) (by decide) (by decide)

/-- C8: given a parsed match response, `generateTaxonomyHierarchy` fails
with the `No taxonomy found` error exactly when the response carries no
usable identifier (`usageKey` absent, or the JS-falsy `0`), in which
case the second (classification) endpoint is not requested; with a
usable identifier the second step is always attempted. -/
theorem notfound_iff_missing_usage_key
    (mN : String → Except String MatchResponse)
    (sN : Nat → Except String GBIFSpeciesRecord)
    (wN : String → Except String WikiSummary) (name : String)
    (m : MatchResponse) (hm : mN name = .ok m) :
    ((generateTaxonomyHierarchy mN sN wN name).1 = .error .noTaxonomyFound ↔
      m.usageKey.getD 0 = 0)
    ∧ (m.usageKey.getD 0 = 0 →
        (generateTaxonomyHierarchy mN sN wN name).2 = false)
    ∧ (∀ k, m.usageKey = some k → k ≠ 0 →
        (generateTaxonomyHierarchy mN sN wN name).2 = true) := by
  rcases hk : m.usageKey with _ | k
  · simp [generateTaxonomyHierarchy, hm, hk]
  · by_cases h0 : k = 0
    · subst h0
      simp [generateTaxonomyHierarchy, hm, hk]
    · rcases hs : sN k with e | recd <;>
        simp [generateTaxonomyHierarchy, hm, hk, h0, hs]

/-- Witness for C8 at concrete oracles. -/
theorem notfound_iff_missing_usage_key_witness :
    ((generateTaxonomyHierarchy matchNetOk speciesNetHomo wikiNetOk
        "Homo sapiens").1 = .error .noTaxonomyFound ↔
      (MatchResponse.mk (some 1)).usageKey.getD 0 = 0)
    ∧ ((MatchResponse.mk (some 1)).usageKey.getD 0 = 0 →
        (generateTaxonomyHierarchy matchNetOk speciesNetHomo wikiNetOk
          "Homo sapiens").2 = false)
    ∧ (∀ k, (MatchResponse.mk (some 1)).usageKey = some k → k ≠ 0 →
        (generateTaxonomyHierarchy matchNetOk speciesNetHomo wikiNetOk
          "Homo sapiens").2 = true) :=
  notfound_iff_missing_usage_key matchNetOk speciesNetHomo wikiNetOk
    "Homo sapiens" ⟨some 1⟩ rfl

/-- C9 (implicit): a successful lookup always yields a hierarchy
containing a Species-rank level with a non-empty name — the Species
level falls back to the queried (non-empty) scientific name — so the
hierarchy is never empty. -/
theorem species_level_always_present
    (mN : String → Except String MatchResponse)
    (sN : Nat → Except String GBIFSpeciesRecord)
    (wN : String → Except String WikiSummary) (name : String)
    (td : TaxonomyData) (hname : name ≠ "")
    (h : (generateTaxonomyHierarchy mN sN wN name).1 = .ok td) :
    td.hierarchy ≠ [] ∧
    ∃ l, l ∈ td.hierarchy ∧ l.rank = "Species" ∧ l.name ≠ "" := by
  rcases hmr : mN name with e | m
  · simp [generateTaxonomyHierarchy, hmr] at h
  · rcases hk : m.usageKey with _ | k
    · simp [generateTaxonomyHierarchy, hmr, hk] at h
    · by_cases h0 : k = 0
      · subst h0
        simp [generateTaxonomyHierarchy, hmr, hk] at h
      · rcases hs : sN k with e | recd
        · simp [generateTaxonomyHierarchy, hmr, hk, h0, hs] at h
        · simp [generateTaxonomyHierarchy, hmr, hk, h0, hs] at h
          obtain ⟨l, hl, hr, hn⟩ := species_mem_taxonomyLevels recd name hname
          rw [← h]
          exact ⟨List.ne_nil_of_mem hl, l, hl, hr, hn⟩

/-- Witness for C9 at concrete oracles. -/
theorem species_level_always_present_witness :
    tdHomo.hierarchy ≠ [] ∧
    ∃ l, l ∈ tdHomo.hierarchy ∧ l.rank = "Species" ∧ l.name ≠ "" :=
  species_level_always_present matchNetOk speciesNetHomo wikiNetOk
    "Homo sapiens" tdHomo (by decide) rfl

/-- Witness for the amended C5 at concrete inputs. -/
theorem failed_fetch_cached_error_none_witness :
    (fetchedResult failNet "gorilla" 4).itis = none ∧
    (fetchedResult failNet "gorilla" 4).gbif = none ∧
    (fetchedResult failNet "gorilla" 4).wiki = none ∧
    (fetchedResult failNet "gorilla" 4).error = none ∧
    storeGorilla.cache (jsToLower "gorilla") = some (fetchedResult failNet "gorilla" 4) ∧
    aggregateRankData failNet 500 600 "gorilla" storeGorilla =
      .ok (fetchedResult failNet "gorilla" 4, storeGorilla, 0) :=
  failed_fetch_cached_error_none failNet "gorilla" 3 4 500 600 emptyStore
    (fetchedResult failNet "gorilla" 4) storeGorilla rfl rfl (by decide) (by decide)

/-- C4 counterexample: the AnimalSearch matcher is substring-only — for
the query `"s"` it returns substring-only matches (e.g.
`"Elephas maximus"`, listed first) while the starts-with name
`"Struthio camelus"` from the static list is not returned at all, so the
claimed two-tier ranking fails on this matcher. -/
theorem substr_matcher_breaks_two_tier :
    suggestSubstr ALL_SCIENTIFIC_NAMES "s" =
      ["Elephas maximus", "Ursus arctos", "Canis lupus", "Felis catus",
       "Equus caballus", "Bos taurus", "Sus scrofa", "Vulpes vulpes",
       "Homo sapiens", "Panthera tigris"]
    ∧ "Struthio camelus" ∈ ALL_SCIENTIFIC_NAMES
    ∧ jsStartsWith (jsToLower "Struthio camelus") (jsToLower (jsTrim "s")) = true
    ∧ "Struthio camelus" ∉ suggestSubstr ALL_SCIENTIFIC_NAMES "s"
    ∧ jsStartsWith (jsToLower "Elephas maximus") (jsToLower (jsTrim "s")) = false
    ∧ jsIncludes (jsToLower "Elephas maximus") (jsToLower (jsTrim "s")) = true := by
  decide

/-- C4 amended: the TaxonomyChart matcher is two-tier over the static
list — for every non-empty (after trim) input its output is the complete
starts-with tier (original list order) followed by an order-preserving
selection of substring-only matches, capped at 10; empty-after-trim
input yields the empty list (on both matchers); the `"pan"` example
behaves as claimed.  The AnimalSearch matcher instead returns at most 10
substring matches in original list order with no tier ranking. -/
theorem suggestion_matcher_behavior :
    (∀ input, jsTrim input = "" →
        suggestTiered ALL_SCIENTIFIC_NAMES input = [] ∧
        suggestSubstr ALL_SCIENTIFIC_NAMES input = [])
    ∧ (∀ input, jsTrim input ≠ "" →
        (suggestTiered ALL_SCIENTIFIC_NAMES input).length ≤ 10 ∧
        ∃ incl,
          suggestTiered ALL_SCIENTIFIC_NAMES input =
            ALL_SCIENTIFIC_NAMES.filter
              (fun n => jsStartsWith (jsToLower n) (jsToLower (jsTrim input)))
            ++ incl ∧
          incl.Sublist (ALL_SCIENTIFIC_NAMES.filter
            (fun n => !jsStartsWith (jsToLower n) (jsToLower (jsTrim input)) &&
              jsIncludes (jsToLower n) (jsToLower (jsTrim input)))))
    ∧ suggestTiered ALL_SCIENTIFIC_NAMES "pan" =
        ["Panthera leo", "Panthera tigris", "Pan troglodytes"]
    ∧ "Pongo pygmaeus" ∉ suggestTiered ALL_SCIENTIFIC_NAMES "pan"
    ∧ (∀ input, (suggestSubstr ALL_SCIENTIFIC_NAMES input).length ≤ 10 ∧
        (suggestSubstr ALL_SCIENTIFIC_NAMES input).Sublist ALL_SCIENTIFIC_NAMES) := by
  refine ⟨?_, ?_, by decide, by decide, ?_⟩
  · intro input h
    constructor <;> simp [suggestTiered, suggestSubstr, h]
  · intro input h
    have hqd : (jsTrim input).data ≠ [] := fun hd => h (string_data_eq_nil hd)
    have hcond : ¬((jsTrim input).data.length = 0) := fun h0 =>
      hqd (List.length_eq_zero.mp h0)
    have hS : (ALL_SCIENTIFIC_NAMES.filter
        (fun n => jsStartsWith (jsToLower n) (jsToLower (jsTrim input)))).length
        ≤ 10 :=
      startsFilter_length_le _ (by
        simpa [jsToLower, List.map_eq_nil_iff] using hqd)
    simp only [suggestTiered, if_neg hcond]
    constructor
    · rw [List.length_take]
      exact min_le_left _ _
    · refine ⟨(ALL_SCIENTIFIC_NAMES.filter
          (fun n => !jsStartsWith (jsToLower n) (jsToLower (jsTrim input)) &&
            jsIncludes (jsToLower n) (jsToLower (jsTrim input)))).take
          (10 - (ALL_SCIENTIFIC_NAMES.filter
            (fun n => jsStartsWith (jsToLower n)
              (jsToLower (jsTrim input)))).length),
        ?_, List.take_sublist _ _⟩
      rw [List.take_append_eq_append_take, List.take_of_length_le hS]
  · intro input
    by_cases h : (jsTrim input).data.length = 0
    · simp [suggestSubstr, h]
    · simp only [suggestSubstr, if_neg h]
      exact ⟨by rw [List.length_take]; exact min_le_left _ _,
        (List.take_sublist _ _).trans (List.filter_sublist _)⟩

/-- Witness for the amended C4 at the concrete input `" PAN "`. -/
theorem suggestion_matcher_behavior_witness :
    (suggestTiered ALL_SCIENTIFIC_NAMES " PAN ").length ≤ 10 ∧
    ∃ incl,
      suggestTiered ALL_SCIENTIFIC_NAMES " PAN " =
        ALL_SCIENTIFIC_NAMES.filter
          (fun n => jsStartsWith (jsToLower n) (jsToLower (jsTrim " PAN ")))
        ++ incl ∧
      incl.Sublist (ALL_SCIENTIFIC_NAMES.filter
        (fun n => !jsStartsWith (jsToLower n) (jsToLower (jsTrim " PAN ")) &&
          jsIncludes (jsToLower n) (jsToLower (jsTrim " PAN ")))) :=
  suggestion_matcher_behavior.2.1 " PAN " (by decide)

end Genus
